import Mathlib

/-!
Verification of the conversational follow-up core of the Explainr app
(`src/main.py`): input sanitization, the OpenAI request retry loop, the
prompt builder for follow-up questions, the per-topic session-backed
conversation store, and the three POST branches of the `explain` route
(clear-conversation, follow-up question, main topic).

Python strings are modelled as Lean `String` (a list of code points, which
matches Python's `len`/indexing on `str`).  Regex substitutions are modelled
character-by-character with the exact non-greedy leftmost semantics of
`re.sub` for the three patterns the code uses.  Recursive scanners use a
fuel argument (`fuel = length + 1`) so that every definition is structural
and kernel-evaluable; each step consumes at least one character, so the
fuel never runs out on the initial call.
-/

/-- ASCII whitespace stripped by Python `str.strip()`. -/
def pyIsSpace (c : Char) : Bool :=
  c == ' ' || c == '\t' || c == '\n' || c == '\r' || c == '\x0b' || c == '\x0c'

/-- Model of Python `str.strip()`: drop leading and trailing whitespace. -/
def pyStrip (s : String) : String :=
  String.mk (((s.data.dropWhile pyIsSpace).reverse.dropWhile pyIsSpace).reverse)

/-- Model of Python `sep.join(l)`. -/
def pyJoin (sep : String) : List String → String
  | [] => ""
  | [x] => x
  | x :: y :: rest => x ++ sep ++ pyJoin sep (y :: rest)

/-- Model of Python `s.startswith(pre)`. -/
def pyStartswith (s pre : String) : Bool :=
  pre.data.isPrefixOf s.data

/-- Model of Python `s.split(newline)` on the single newline character:
keeps empty pieces, so it agrees with `str.split` exactly. -/
def splitNL : List Char → List (List Char)
  | [] => [[]]
  | '\n' :: rest => [] :: splitNL rest
  | c :: rest =>
    match splitNL rest with
    | [] => [[c]]
    | x :: xs => (c :: x) :: xs

/-- String-level wrapper for `splitNL`. -/
def pySplitLines (s : String) : List String :=
  (splitNL s.data).map String.mk

/-- Index of the earliest occurrence of two consecutive asterisks, scanning
only up to the first newline (Python's `.` does not match a newline, so a
non-greedy `(.*?)` group cannot cross one). -/
def findStarStar : List Char → Option Nat
  | [] => none
  | '\n' :: _ => none
  | '*' :: '*' :: _ => some 0
  | _ :: rest => (findStarStar rest).map (· + 1)

/-- Index of the earliest single asterisk before the first newline. -/
def findStar : List Char → Option Nat
  | [] => none
  | '\n' :: _ => none
  | '*' :: _ => some 0
  | _ :: rest => (findStar rest).map (· + 1)

/-- Fuelled scanner for `re.sub` with a double-asterisk pattern replacing the
match by the inner group: on an opening pair, the earliest closing pair on
the same line ends the match; with no closing pair the engine moves one
character to the right. -/
def subBoldAux : Nat → List Char → List Char
  | 0, l => l
  | _ + 1, [] => []
  | fuel + 1, '*' :: '*' :: rest =>
    (match findStarStar rest with
     | some i => rest.take i ++ subBoldAux fuel (rest.drop (i + 2))
     | none => '*' :: subBoldAux fuel ('*' :: rest))
  | fuel + 1, c :: rest => c :: subBoldAux fuel rest

/-- Fuelled scanner for the single-asterisk pattern, same semantics. -/
def subStarAux : Nat → List Char → List Char
  | 0, l => l
  | _ + 1, [] => []
  | fuel + 1, '*' :: rest =>
    (match findStar rest with
     | some i => rest.take i ++ subStarAux fuel (rest.drop (i + 1))
     | none => '*' :: subStarAux fuel rest)
  | fuel + 1, c :: rest => c :: subStarAux fuel rest

/-- Model of `re.sub` removing double-asterisk emphasis wrappers. -/
def subBold (s : String) : String :=
  String.mk (subBoldAux (s.data.length + 1) s.data)

/-- Model of `re.sub` removing single-asterisk emphasis wrappers. -/
def subStar (s : String) : String :=
  String.mk (subStarAux (s.data.length + 1) s.data)

/-- Fuelled model of `re.sub` replacing every maximal run of three or more
newlines by exactly two newlines. -/
def collapseNLAux : Nat → List Char → List Char
  | 0, l => l
  | _ + 1, [] => []
  | fuel + 1, '\n' :: rest =>
    let run := rest.takeWhile (· == '\n')
    let rest' := rest.dropWhile (· == '\n')
    (if run.length + 1 ≥ 3 then ['\n', '\n'] else '\n' :: run) ++ collapseNLAux fuel rest'
  | fuel + 1, c :: rest => c :: collapseNLAux fuel rest

/-- String-level wrapper for `collapseNLAux`. -/
def collapseNewlines (s : String) : String :=
  String.mk (collapseNLAux (s.data.length + 1) s.data)

/-- Characters removed by `sanitize_input`: the regex class of angle
brackets, the double quote (code 34) and the single quote (code 39). -/
def isBadChar (c : Char) : Bool :=
  c == '<' || c == '>' || c == Char.ofNat 34 || c == Char.ofNat 39

/-- Maximum topic length from `Config.MAX_TOPIC_LENGTH`. -/
def MAX_TOPIC_LENGTH : Nat := 200

/-- Retry bound from `Config.MAX_RETRIES`. -/
def MAX_RETRIES : Nat := 3

/-- Model of `sanitize_input`: remove the harmful characters, strip
surrounding whitespace, then truncate to `MAX_TOPIC_LENGTH` characters. -/
def sanitize_input (text : String) : String :=
  if text = "" then ""
  else
    let t1 := String.mk (text.data.filter (fun c => !(isBadChar c)))
    let t2 := pyStrip t1
    if MAX_TOPIC_LENGTH < t2.length then String.mk (t2.data.take MAX_TOPIC_LENGTH) else t2

/-! ## Completion client: `make_openai_request` -/

/-- Fixed message returned when the API key is absent or a placeholder. -/
def configMsg : String :=
  "OpenAI API key not configured. Please set the OPENAI_API_KEY environment variable."

/-- Fixed message returned after the rate-limit retries are exhausted. -/
def unavailableMsg : String :=
  "Service temporarily unavailable due to high demand. Please try again later."

/-- Fixed message returned on `openai.error.APIError`. -/
def apiErrorMsg : String :=
  "API Error: Unable to process request. Please try again."

/-- Fixed message returned on `openai.error.InvalidRequestError`. -/
def invalidReqMsg : String :=
  "Invalid request. Please check your input and try again."

/-- Fixed message returned after generic-exception retries are exhausted. -/
def unexpectedMsg : String :=
  "An unexpected error occurred. Please try again."

/-- Fixed fallback message after the retry loop (line 164 of the source). -/
def failedMsg : String :=
  "Request failed after multiple attempts."

/-- Outcome of one `openai.ChatCompletion.create` attempt, classifying the
exception branches of `make_openai_request`. -/
inductive ApiOutcome where
  | success (text : String)
  | rateLimited
  | apiError
  | invalidRequest
  | otherError
deriving DecidableEq, Repr

/-- Result of `make_openai_request`: the returned string, how many
`ChatCompletion.create` attempts were made, and the `time.sleep` durations
(in seconds) between consecutive attempts, in order.  The embedding is a
total function: every path returns a string, none throws. -/
structure ReqResult where
  text : String
  attempts : Nat
  sleeps : List Nat
deriving DecidableEq, Repr

/-- Retry loop of `make_openai_request`.  `remaining` counts the loop
iterations still available (`max_retries - attempt`); `remaining = 0` inside
an iteration means this is the final attempt (`attempt == max_retries - 1`).
Rate limiting sleeps `2 ** attempt` seconds before retrying; a generic
exception sleeps 1 second; `APIError` and `InvalidRequestError` return
immediately. -/
def requestLoop (outcomes : Nat → ApiOutcome) (attempt : Nat) (sleeps : List Nat) :
    Nat → ReqResult
  | 0 => ⟨failedMsg, attempt, sleeps⟩
  | remaining + 1 =>
    match outcomes attempt with
    | .success t => ⟨pyStrip t, attempt + 1, sleeps⟩
    | .rateLimited =>
      if remaining = 0 then ⟨unavailableMsg, attempt + 1, sleeps⟩
      else requestLoop outcomes (attempt + 1) (sleeps ++ [2 ^ attempt]) remaining
    | .apiError => ⟨apiErrorMsg, attempt + 1, sleeps⟩
    | .invalidRequest => ⟨invalidReqMsg, attempt + 1, sleeps⟩
    | .otherError =>
      if remaining = 0 then ⟨unexpectedMsg, attempt + 1, sleeps⟩
      else requestLoop outcomes (attempt + 1) (sleeps ++ [1]) remaining

/-- Model of `make_openai_request`: `configured` is whether
`config.OPENAI_API_KEY` is set and not the placeholder; `outcomes` gives the
result of each successive API attempt. -/
def make_openai_request (configured : Bool) (outcomes : Nat → ApiOutcome)
    (maxRetries : Nat := MAX_RETRIES) : ReqResult :=
  if configured = false then ⟨configMsg, 0, []⟩
  else requestLoop outcomes 0 [] maxRetries

/-! ## Data model: exchanges, messages, the session-backed store -/

/-- One follow-up exchange: the dict with keys `question` and `answer`
appended to `session[session_key]`. -/
structure Exchange where
  question : String
  answer : String
deriving DecidableEq, Repr

/-- One chat message: a dict with `role` and `content`. -/
structure Message where
  role : String
  content : String
deriving DecidableEq, Repr

/-- The Flask session, restricted to what the core reads and writes:
an insertion-ordered association of string keys to conversation lists. -/
abbrev Store := List (String × List Exchange)

/-- Session key for a topic: `f"conversation_{topic}"`. -/
def convKey (topic : String) : String := "conversation_" ++ topic

/-- First-match association lookup (Python dict read). -/
def lookupKey : Store → String → Option (List Exchange)
  | [], _ => none
  | (k, v) :: rest, key => if k = key then some v else lookupKey rest key

/-- Python dict assignment: replace the value of an existing key in place,
or append a fresh key at the end. -/
def setKey : Store → String → List Exchange → Store
  | [], key, v => [(key, v)]
  | (k, w) :: rest, key, v =>
    if k = key then (key, v) :: rest else (k, w) :: setKey rest key v

/-- Python `del session[key]` (guarded by `if key in session`, so deleting
an absent key is a no-op, which removal models as well). -/
def delKey : Store → String → Store
  | [], _ => []
  | (k, v) :: rest, key =>
    if k = key then delKey rest key else (k, v) :: delKey rest key

/-- Model of `session.get(f"conversation_{topic}", [])`. -/
def getConv (store : Store) (topic : String) : List Exchange :=
  (lookupKey store (convKey topic)).getD []

/-- Model of `session[f"conversation_{topic}"] = conv`. -/
def setConv (store : Store) (topic : String) (conv : List Exchange) : Store :=
  setKey store (convKey topic) conv

/-- Model of the `clear_conversation` handler (lines 970–975): delete every
session key that starts with `conversation_` — all topics at once. -/
def clearConversation : Store → Store
  | [] => []
  | (k, v) :: rest =>
    if pyStartswith k "conversation_" = true then clearConversation rest
    else (k, v) :: clearConversation rest

/-! ## Prompt builders and response parsing -/

/-- Error-classification check used by the route and by
`generate_explanation`: `.startswith(("Error:", "API Error:", "Service
temporarily"))`. -/
def isErrorResponse (s : String) : Bool :=
  pyStartswith s "Error:" || pyStartswith s "API Error:" || pyStartswith s "Service temporarily"

/-- System message for the primary explanation. -/
def educatorSystem : String :=
  "You are an expert educator who explains complex topics clearly at different levels. Always use the exact format requested with clear level headings."

/-- Main prompt for the requested explanation level (the triple-quoted
f-strings of `generate_explanation`, indentation included). -/
def mainPrompt (topic explanation_type : String) : String :=
  if explanation_type = "simple" then
    "\n        Explain \"" ++ topic ++ "\" for a 5-year-old child in 2-3 short paragraphs. Use:\n        - Very simple words and short sentences\n        - One fun example they can relate to\n        - Keep it brief and engaging\n        "
  else if explanation_type = "teen" then
    "\n        Explain \"" ++ topic ++ "\" for a 15-year-old student in 2-3 paragraphs. Use:\n        - Clear explanations with some technical terms\n        - One real-world example\n        - Why it matters to them\n        - Keep it concise and informative\n        "
  else
    "\n        Explain \"" ++ topic ++ "\" for an adult in 2-3 paragraphs. Include:\n        - Technical terminology and precise language\n        - Key applications and implications\n        - Keep it comprehensive but concise\n        "

/-- Messages for the primary explanation call. -/
def mainMessages (topic explanation_type : String) : List Message :=
  [⟨"system", educatorSystem⟩, ⟨"user", mainPrompt topic explanation_type⟩]

/-- Messages for the initial follow-up-question generation call. -/
def fuMessages (topic : String) : List Message :=
  [⟨"system", "Generate exactly 3 thoughtful follow-up questions. Return only the questions, one per line, without numbering."⟩,
   ⟨"user", "Generate 3 follow-up questions someone might ask after learning about " ++ topic ++ "."⟩]

/-- Messages for the related-topics call. -/
def relMessages (topic : String) : List Message :=
  [⟨"system", "Generate exactly 5 related topics. Return only the topic names, one per line."⟩,
   ⟨"user", "List 5 topics closely related to " ++ topic ++ " that would be interesting to explore."⟩]

/-- Line parsing shared by the question/topic responses:
`[q.strip() for q in response.split(newline) if q.strip()]`. -/
def parseLines (resp : String) : List String :=
  ((pySplitLines resp).map pyStrip).filter (fun x => x != "")

/-- Cleanup applied to a successful primary explanation (lines 200–220):
strip emphasis markup, re-join the stripped non-empty lines with blank
lines, collapse any triple-newline runs, and strip the ends. -/
def genExplClean (s : String) : String :=
  let s1 := subStar (subBold s)
  let pieces := ((pySplitLines s1).map pyStrip).filter (fun x => x != "")
  pyStrip (collapseNewlines (pyJoin "\n\n" pieces))

/-- Model of `generate_explanation`.  The client is the text-level view of
`make_openai_request`: it maps the message list sent to the string that the
request function returns.  Three requests are always made (explanation,
follow-up questions, related topics). -/
def generate_explanation (topic explanation_type : String)
    (client : List Message → String) : String × List String × List String :=
  let r0 := client (mainMessages topic explanation_type)
  let result := if r0 ≠ "" ∧ isErrorResponse r0 = false then genExplClean r0 else r0
  let fr := client (fuMessages topic)
  let fuqs := if fr ≠ "" ∧ isErrorResponse fr = false then (parseLines fr).take 3 else []
  let rr := client (relMessages topic)
  let rels := if rr ≠ "" ∧ isErrorResponse rr = false then (parseLines rr).take 5 else []
  (result, fuqs, rels)

/-- Rendering of one prior exchange inside the conversation context:
`f"Q{i}: {question}\nA{i}: {answer}\n\n"`. -/
def renderQA (i : Nat) (e : Exchange) : String :=
  "Q" ++ toString i ++ ": " ++ e.question ++ "\nA" ++ toString i ++ ": " ++ e.answer ++ "\n\n"

/-- Loop of lines 1009–1010: append the rendering of each exchange,
numbering from `i` (the route starts at 1 via `enumerate(..., 1)`). -/
def contextLoop : List Exchange → Nat → String
  | [], _ => ""
  | e :: rest, i => renderQA i e ++ contextLoop rest (i + 1)

/-- Conversation context of lines 1006–1010: empty for an empty
conversation, otherwise a header followed by every prior exchange. -/
def conversationContext (conv : List Exchange) : String :=
  if conv.isEmpty then "" else "\n\nPrevious conversation:\n" ++ contextLoop conv 1

/-- User payload of the follow-up completion call (line 1015). -/
def userPayload (topic : String) (conv : List Exchange) (question : String) : String :=
  "Original topic: " ++ topic ++ conversationContext conv ++
    "\nCurrent follow-up question: " ++ question

/-- Messages for the follow-up completion call (lines 1013–1016). -/
def followupMessages (topic explanation_type : String) (conv : List Exchange)
    (question : String) : List Message :=
  [⟨"system", "You are explaining topics at a " ++ explanation_type ++ " level. Answer this follow-up question about " ++ topic ++ " clearly and concisely. Consider the previous conversation context if provided."⟩,
   ⟨"user", userPayload topic conv question⟩]

/-- Cleanup applied to a successful follow-up answer (lines 1022–1024):
strip emphasis markup and trim; blank lines are not collapsed here. -/
def followupClean (s : String) : String :=
  pyStrip (subStar (subBold s))

/-- Avoid-list block of `generate_new_suggested_questions` (lines 249–251). -/
def askedContext (asked_questions : List String) : String :=
  if asked_questions.isEmpty then ""
  else
    "\n\nAvoid these questions that have already been asked:\n" ++
      pyJoin "\n" (asked_questions.map (fun q => "- " ++ q))

/-- User content of the suggested-questions prompt (line 255). -/
def suggestedUser (topic : String) (asked_questions : List String) : String :=
  "Generate 3 NEW follow-up questions someone might ask after learning about " ++
    topic ++ "." ++ askedContext asked_questions

/-- Messages for the suggested-questions call (lines 253–256). -/
def suggestedMessages (topic : String) (asked_questions : List String)
    (explanation_type : String) : List Message :=
  [⟨"system", "Generate exactly 3 new follow-up questions about " ++ topic ++ " at a " ++ explanation_type ++ " level. Return only the questions, one per line, without numbering."⟩,
   ⟨"user", suggestedUser topic asked_questions⟩]

/-- Parsing of the suggested-questions response (lines 259–262): at most 3
stripped non-empty lines, and nothing when the response is empty or
error-prefixed.  The already-asked questions play no part here — the
exclusion is purely advisory, encoded only in the prompt. -/
def parseSuggested (resp : String) : List String :=
  if resp ≠ "" ∧ isErrorResponse resp = false then (parseLines resp).take 3 else []

/-- Model of `generate_new_suggested_questions`: build the prompt from the
asked questions, make one request, parse the response. -/
def generate_new_suggested_questions (topic : String) (asked_questions : List String)
    (explanation_type : String) (client : List Message → String) : List String :=
  parseSuggested (client (suggestedMessages topic asked_questions explanation_type))

/-! ## The `explain` route (POST branches)

The observable outcome of one POST request.  Ghost counters record the
externally visible calls the handler makes: `completionCalls` counts
`make_openai_request` invocations, `historyReads`/`historyWrites` the
`get_recent_searches`/`add_search_to_history` calls on the search-history
database, and `convGets` the `session.get` reads of a conversation.
`result` is the primary-explanation slot of the template; in the follow-up
branch the code refills it from the posted `original_result` (via
`html.unescape`) or a fresh generation — that redisplayed text is
presentation-only, no claim concerns it, and it is not tracked here
(`result` is tracked for the main-topic branch, which the claims consult).
-/

/-- Error message for an empty topic (line 1045). -/
def emptyTopicMsg : String := "Error: Please enter a topic to explain."

/-- Error message for a too-short topic (line 1047). -/
def tooShortMsg : String := "Error: Topic too short. Please enter a meaningful topic."

/-- Observable outcome of one POST request to `explain`. -/
structure ExplainResult where
  store : Store
  result : Option String
  followupResponse : Option String
  conversation : List Exchange
  suggested : List String
  related : List String
  completionCalls : Nat
  historyReads : Nat
  historyWrites : Nat
  convGets : Nat
deriving DecidableEq, Repr

/-- Follow-up branch (lines 978–1038) after sanitization: `q` and `t` are
the already-sanitized question and topic.  The conversation is read from the
session before the validity check; the answer request is made only when both
inputs are non-empty; an exchange is appended (and the suggested questions
regenerated) only when the response passes the error-prefix check.  Call
counts: `generate_explanation` always contributes 3 requests in the valid
branch, the follow-up answer 1, and the suggested-questions regeneration 1
more on success. -/
def followupCore (store : Store) (q t _origResult explanation_type : String)
    (client : List Message → String) : ExplainResult :=
  let conv := getConv store t
  if q ≠ "" ∧ t ≠ "" then
    let ge := generate_explanation t explanation_type client
    let resp := client (followupMessages t explanation_type conv q)
    if resp ≠ "" ∧ isErrorResponse resp = false then
      let cleaned := followupClean resp
      let conv' := conv ++ [⟨q, cleaned⟩]
      let asked := conv'.map (fun e => e.question)
      { store := setConv store t conv'
        result := none
        followupResponse := some cleaned
        conversation := conv'
        suggested := generate_new_suggested_questions t asked explanation_type client
        related := ge.2.2
        completionCalls := 5
        historyReads := 1
        historyWrites := 0
        convGets := 1 }
    else
      { store := store
        result := none
        followupResponse := some resp
        conversation := conv
        suggested := ge.2.1
        related := ge.2.2
        completionCalls := 4
        historyReads := 1
        historyWrites := 0
        convGets := 1 }
  else
    { store := store
      result := none
      followupResponse := none
      conversation := conv
      suggested := []
      related := []
      completionCalls := 0
      historyReads := 1
      historyWrites := 0
      convGets := 1 }

/-- Follow-up branch on the raw form fields (lines 980–981 sanitize both). -/
def followupBranch (store : Store) (rawQuestion rawTopic origResult explanation_type : String)
    (client : List Message → String) : ExplainResult :=
  followupCore store (sanitize_input rawQuestion) (sanitize_input rawTopic)
    origResult explanation_type client

/-- Main-topic branch (lines 1040–1058) after sanitization: reject an empty
or too-short topic with an error string and no external calls; otherwise
record the search, generate the explanation (3 requests), delete any stored
conversation for the topic, and refresh the recent searches (a second
history read). -/
def startTopicCore (store : Store) (t explanation_type : String)
    (client : List Message → String) : ExplainResult :=
  if t = "" then
    { store := store, result := some emptyTopicMsg, followupResponse := none
      conversation := [], suggested := [], related := []
      completionCalls := 0, historyReads := 1, historyWrites := 0, convGets := 0 }
  else if (pyStrip t).length < 2 then
    { store := store, result := some tooShortMsg, followupResponse := none
      conversation := [], suggested := [], related := []
      completionCalls := 0, historyReads := 1, historyWrites := 0, convGets := 0 }
  else
    let ge := generate_explanation t explanation_type client
    { store := delKey store (convKey t)
      result := some ge.1
      followupResponse := none
      conversation := []
      suggested := ge.2.1
      related := ge.2.2
      completionCalls := 3
      historyReads := 2
      historyWrites := 1
      convGets := 0 }

/-- Main-topic branch on the raw form field (line 1041 sanitizes). -/
def startTopicBranch (store : Store) (rawTopic explanation_type : String)
    (client : List Message → String) : ExplainResult :=
  startTopicCore store (sanitize_input rawTopic) explanation_type client

/-- Clear-conversation branch (lines 970–975): every `conversation_` key is
deleted and a JSON status is returned; nothing else is touched. -/
def clearBranch (store : Store) : ExplainResult :=
  { store := clearConversation store
    result := none, followupResponse := none
    conversation := [], suggested := [], related := []
    completionCalls := 0, historyReads := 1, historyWrites := 0, convGets := 0 }

/-- Spec-modelled normalization for claim comparison.  The specification
describes the stored follow-up answer as the completion text with emphasis
markup stripped, redundant blank lines collapsed to at most one, and the
ends trimmed; this definition follows those words (it is not drawn from the
follow-up code path, which performs no blank-line collapsing). -/
def claimedNormalize (s : String) : String :=
  pyStrip (collapseNewlines (subStar (subBold s)))

/-! ## Store lemmas -/

/-- Reading a key just written returns the written value. -/
theorem lookupKey_setKey (s : Store) (k : String) (v : List Exchange) :
    lookupKey (setKey s k v) k = some v := by
  induction s with
  | nil => simp [setKey, lookupKey]
  | cons kv rest ih =>
    obtain ⟨k', w⟩ := kv
    by_cases h : k' = k
    · simp [setKey, lookupKey, h]
    · simp [setKey, lookupKey, h, ih]

/-- Reading a key just deleted finds nothing. -/
theorem lookupKey_delKey (s : Store) (k : String) :
    lookupKey (delKey s k) k = none := by
  induction s with
  | nil => simp [delKey, lookupKey]
  | cons kv rest ih =>
    obtain ⟨k', w⟩ := kv
    by_cases h : k' = k
    · simp [delKey, h, ih]
    · simp [delKey, lookupKey, h, ih]

/-- Reading a conversation just written returns it. -/
theorem getConv_setConv (s : Store) (t : String) (v : List Exchange) :
    getConv (setConv s t v) t = v := by
  simp [getConv, setConv, lookupKey_setKey]

/-- Reading a conversation whose key was deleted yields the empty list. -/
theorem getConv_delKey (s : Store) (t : String) :
    getConv (delKey s (convKey t)) t = [] := by
  simp [getConv, lookupKey_delKey]

/-- A character list is a Boolean prefix of itself followed by anything. -/
theorem isPrefixOf_append_self (l₁ l₂ : List Char) :
    l₁.isPrefixOf (l₁ ++ l₂) = true := by
  induction l₁ with
  | nil => simp [List.isPrefixOf]
  | cons a as ih => simp [List.isPrefixOf, ih]

/-- Every conversation key carries the `conversation_` namespace. -/
theorem pyStartswith_convKey (t : String) :
    pyStartswith (convKey t) "conversation_" = true := by
  have h : (convKey t).data = "conversation_".data ++ t.data := by
    simp [convKey]
  simp [pyStartswith, h, isPrefixOf_append_self]

/-- After the clear handler, no conversation key remains. -/
theorem lookupKey_clearConversation (s : Store) (t : String) :
    lookupKey (clearConversation s) (convKey t) = none := by
  induction s with
  | nil => simp [clearConversation, lookupKey]
  | cons kv rest ih =>
    obtain ⟨k, v⟩ := kv
    by_cases h : pyStartswith k "conversation_" = true
    · simp [clearConversation, h, ih]
    · have hk : ¬ k = convKey t := by
        intro he
        exact h (he ▸ pyStartswith_convKey t)
      simp [clearConversation, h, lookupKey, hk, ih]

/-- After the clear handler, every topic reads as an empty conversation. -/
theorem getConv_clearConversation (s : Store) (t : String) :
    getConv (clearConversation s) t = [] := by
  simp [getConv, lookupKey_clearConversation]

/-- The clear handler is idempotent on the session. -/
theorem clearConversation_idem (s : Store) :
    clearConversation (clearConversation s) = clearConversation s := by
  induction s with
  | nil => rfl
  | cons kv rest ih =>
    obtain ⟨k, v⟩ := kv
    by_cases h : pyStartswith k "conversation_" = true
    · simp [clearConversation, h, ih]
    · simp [clearConversation, h, ih]

/-! ## Transcript lemmas -/

/-- Unfolding lemma for `String.join` on a cons. -/
theorem stringJoin_cons (a : String) (l : List String) :
    String.join (a :: l) = a ++ String.join l := by
  apply String.ext
  simp [String.join_eq]

/-- The transcript loop renders exactly the exchanges of the list, in list
order, numbered consecutively from the starting index. -/
theorem contextLoop_eq_join (conv : List Exchange) (i : Nat) :
    contextLoop conv i =
      String.join ((conv.enumFrom i).map (fun p => renderQA p.1 p.2)) := by
  induction conv generalizing i with
  | nil =>
    apply String.ext
    simp [contextLoop, String.join_eq]
  | cons e rest ih =>
    simp only [contextLoop, List.enumFrom_cons, List.map_cons, stringJoin_cons]
    rw [ih]

/-! ## Sanitization lemmas -/

/-- Stripping only removes characters. -/
theorem mem_data_pyStrip {c : Char} {s : String} (h : c ∈ (pyStrip s).data) :
    c ∈ s.data := by
  simp only [pyStrip] at h
  rw [List.mem_reverse] at h
  have h1 := (List.dropWhile_sublist pyIsSpace).subset h
  rw [List.mem_reverse] at h1
  exact (List.dropWhile_sublist pyIsSpace).subset h1

/-- The sanitized topic never exceeds `MAX_TOPIC_LENGTH` characters. -/
theorem sanitize_input_length (s : String) :
    (sanitize_input s).length ≤ MAX_TOPIC_LENGTH := by
  simp only [sanitize_input]
  split
  · simp [String.length, MAX_TOPIC_LENGTH]
  · split
    · simp only [String.length, String.mk]
      rw [List.length_take]
      exact Nat.min_le_left _ _
    · omega

/-- No harmful character survives sanitization. -/
theorem sanitize_input_chars {s : String} {c : Char}
    (h : c ∈ (sanitize_input s).data) : isBadChar c = false := by
  simp only [sanitize_input] at h
  split at h
  · simp at h
  · split at h
    · have h1 := (List.take_sublist _ _).subset h
      have h2 := mem_data_pyStrip h1
      have h3 := List.of_mem_filter h2
      simpa using h3
    · have h2 := mem_data_pyStrip h
      have h3 := List.of_mem_filter h2
      simpa using h3

/-! ## Infix lemmas for the suggested-questions prompt -/

/-- An element of a joined list appears verbatim inside the join. -/
theorem isInfix_pyJoin {x : String} {l : List String} (sep : String) (h : x ∈ l) :
    List.IsInfix x.data (pyJoin sep l).data := by
  induction l with
  | nil => cases h
  | cons y rest ih =>
    rcases List.mem_cons.mp h with he | hm
    · subst he
      cases rest with
      | nil => exact ⟨[], [], by simp [pyJoin]⟩
      | cons z zs =>
        exact ⟨[], sep.data ++ (pyJoin sep (z :: zs)).data, by simp [pyJoin]⟩
    · have hm' : x ∈ rest := hm
      cases rest with
      | nil => cases hm'
      | cons z zs =>
        obtain ⟨u, v, huv⟩ := ih hm'
        exact ⟨y.data ++ sep.data ++ u, v, by simp [pyJoin, ← huv]⟩

/-- Every already-asked question is listed verbatim, behind a dash marker,
in the user content of the suggested-questions prompt. -/
theorem asked_isInfix_suggestedUser {q : String} {asked : List String}
    (topic : String) (h : q ∈ asked) :
    List.IsInfix ("- " ++ q).data (suggestedUser topic asked).data := by
  have hne : asked.isEmpty = false := by
    cases asked with
    | nil => cases h
    | cons a rest => rfl
  have hmem : ("- " ++ q) ∈ asked.map (fun x => "- " ++ x) :=
    List.mem_map_of_mem _ h
  obtain ⟨u, v, huv⟩ := isInfix_pyJoin "\n" hmem
  refine ⟨("Generate 3 NEW follow-up questions someone might ask after learning about " ++
      topic ++ "." ++ "\n\nAvoid these questions that have already been asked:\n").data ++ u,
    v, ?_⟩
  simp only [suggestedUser, askedContext, hne, if_neg Bool.false_ne_true]
  simp [← huv]

/-! ## Claim theorems -/

/-- C2: a completion client that reports `RateLimited` on every attempt
causes exactly `MAX_RETRIES = 3` `ChatCompletion.create` attempts, with
waits of 1 then 2 time units between consecutive attempts (each doubling
the prior wait, starting at `2 ^ 0 = 1`), and the request returns the
"temporarily unavailable" message as an ordinary string value — the
embedding is a total function, so no exception can escape. -/
theorem rateLimited_retry_bound :
    make_openai_request true (fun _ => ApiOutcome.rateLimited) MAX_RETRIES =
      ⟨unavailableMsg, MAX_RETRIES, [1, 2]⟩ := by decide

/-- C3: the user payload of a follow-up completion renders every prior
exchange as a `Qi:`/`Ai:` pair, numbered 1-based in exact append order with
none omitted or reordered (the transcript is the join of the renderings of
`conv` enumerated from 1), and for an empty conversation the transcript
segment is omitted entirely. -/
theorem followup_transcript_order :
    (∀ topic q : String,
      userPayload topic [] q =
        "Original topic: " ++ topic ++ "\nCurrent follow-up question: " ++ q) ∧
    (∀ (topic q : String) (conv : List Exchange), conv ≠ [] →
      userPayload topic conv q =
        "Original topic: " ++ topic ++
          ("\n\nPrevious conversation:\n" ++
            String.join ((conv.enumFrom 1).map (fun p => renderQA p.1 p.2))) ++
          "\nCurrent follow-up question: " ++ q) := by
  constructor
  · intro topic q
    simp [userPayload, conversationContext]
  · intro topic q conv h
    have hne : conv.isEmpty = false := by
      cases conv with
      | nil => simp at h
      | cons e rest => rfl
    simp [userPayload, conversationContext, hne, contextLoop_eq_join]

/-- Witness for C3 at a concrete two-exchange conversation. -/
theorem followup_transcript_order_witness :
    ([⟨"a", "b"⟩, ⟨"c", "d"⟩] ≠ ([] : List Exchange)) ∧
    userPayload "dna" [⟨"a", "b"⟩, ⟨"c", "d"⟩] "next" =
      "Original topic: dna\n\nPrevious conversation:\nQ1: a\nA1: b\n\nQ2: c\nA2: d\n\n\nCurrent follow-up question: next" :=
  ⟨by decide,
   (followup_transcript_order.2 "dna" "next" [⟨"a", "b"⟩, ⟨"c", "d"⟩] (by decide)).trans
     (by decide)⟩

/-- C4: a valid main-topic request (non-empty sanitized topic of stripped
length at least 2) deletes any stored conversation for that topic, so
reading the conversation immediately afterwards yields the empty
sequence. -/
theorem startTopic_clears_conversation (store : Store)
    (rawTopic explanation_type : String) (client : List Message → String)
    (h1 : sanitize_input rawTopic ≠ "")
    (h2 : ¬ (pyStrip (sanitize_input rawTopic)).length < 2) :
    getConv (startTopicBranch store rawTopic explanation_type client).store
      (sanitize_input rawTopic) = [] := by
  simp only [startTopicBranch, startTopicCore, if_neg h1, if_neg h2]
  exact getConv_delKey store (sanitize_input rawTopic)

/-- Witness for C4: a stored conversation for the topic disappears. -/
theorem startTopic_clears_conversation_witness :
    sanitize_input "Photosynthesis" ≠ "" ∧
    getConv (startTopicBranch [(convKey "Photosynthesis", [⟨"q", "a"⟩])]
      "Photosynthesis" "simple" (fun _ => "ok")).store (sanitize_input "Photosynthesis") = [] :=
  ⟨by decide,
   startTopic_clears_conversation [(convKey "Photosynthesis", [⟨"q", "a"⟩])]
     "Photosynthesis" "simple" (fun _ => "ok") (by decide) (by decide)⟩

/-- C5 counterexample: the clear-conversation handler deletes every
`conversation_` session key, so clearing the conversation (nominally for
topic A) also erases the stored conversation of topic B — the claim that
other topics in the same session are left unchanged is false. -/
theorem clear_erases_other_topics_cex :
    getConv [(convKey "A", [⟨"q", "x"⟩]), (convKey "B", [⟨"r", "y"⟩])] "B" = [⟨"r", "y"⟩] ∧
    getConv (clearBranch [(convKey "A", [⟨"q", "x"⟩]), (convKey "B", [⟨"r", "y"⟩])]).store "B"
      = [] := by decide

/-- C5 amended: the clear-conversation operation is session-wide — it
removes the stored exchanges of every topic, not only the requested one —
and it is idempotent: clearing twice yields the same empty state, and
clearing an already-empty session is not an error (the handler is a total
function that always succeeds). -/
theorem clear_conversation_sessionwide :
    (∀ (store : Store) (t : String), getConv (clearBranch store).store t = []) ∧
    (∀ store : Store, (clearBranch (clearBranch store).store).store = (clearBranch store).store) := by
  constructor
  · intro store t
    exact getConv_clearConversation store t
  · intro store
    exact clearConversation_idem store

/-- C1 (evaluation of the code bug): with an unconfigured completion
client, `make_openai_request` returns the configuration failure message;
that string does not match any of the three failure prefixes the follow-up
handler checks (`Error:`, `API Error:`, `Service temporarily`), so the
handler treats the failure as a successful answer and persists it — the
exchange pairing the question with the failure message is appended to the
stored conversation, contradicting the claim that a failed call appends
zero exchanges. -/
theorem unconfigured_failure_persisted :
    (make_openai_request false (fun _ => ApiOutcome.rateLimited) MAX_RETRIES).text = configMsg ∧
    isErrorResponse configMsg = false ∧
    getConv (followupBranch [] "Why is it green?" "Photosynthesis" "" "simple"
        (fun _ => configMsg)).store "Photosynthesis" =
      [⟨"Why is it green?", configMsg⟩] := by decide

/-- C6 counterexample: for an empty follow-up question the handler still
reads the conversation from the session (the `session.get` happens before
the validity check), and no invalid-input message of any kind is produced —
the request silently renders nothing. -/
theorem empty_question_reads_store_cex :
    (followupBranch [(convKey "DNA", [⟨"q0", "a0"⟩])] "" "DNA" "" "simple"
        (fun _ => "ok")).convGets = 1 ∧
    (followupBranch [(convKey "DNA", [⟨"q0", "a0"⟩])] "" "DNA" "" "simple"
        (fun _ => "ok")).followupResponse = none := by decide

/-- C6 amended: for a follow-up request whose question or topic is empty
after sanitization, the stored state is unchanged, no completion call is
made and no exchange is appended; however the conversation is read from the
session exactly once (before validation), and no error message is produced
for the user. -/
theorem empty_question_no_effect (store : Store) (rawQ rawT orig level : String)
    (client : List Message → String)
    (h : sanitize_input rawQ = "" ∨ sanitize_input rawT = "") :
    (followupBranch store rawQ rawT orig level client).store = store ∧
    (followupBranch store rawQ rawT orig level client).completionCalls = 0 ∧
    (followupBranch store rawQ rawT orig level client).followupResponse = none ∧
    (followupBranch store rawQ rawT orig level client).convGets = 1 := by
  have hcond : ¬ (sanitize_input rawQ ≠ "" ∧ sanitize_input rawT ≠ "") := by
    rcases h with h | h <;> simp [h]
  simp [followupBranch, followupCore, if_neg hcond]

/-- Witness for the amended C6 at an empty question. -/
theorem empty_question_no_effect_witness :
    (sanitize_input "" = "" ∨ sanitize_input "X" = "") ∧
    (followupBranch [(convKey "DNA", [⟨"q0", "a0"⟩])] "" "X" "" "simple"
        (fun _ => "ok")).store = [(convKey "DNA", [⟨"q0", "a0"⟩])] :=
  ⟨Or.inl (by decide),
   (empty_question_no_effect [(convKey "DNA", [⟨"q0", "a0"⟩])] "" "X" "" "simple"
     (fun _ => "ok") (Or.inl (by decide))).1⟩

set_option maxRecDepth 4000 in
/-- C7 counterexample: a 201-character topic is not rejected — sanitization
truncates it to 200 characters and the request is processed normally,
making three completion requests and one history write instead of failing
before any external call. -/
theorem oversized_topic_processed_cex :
    (startTopicBranch [] (String.mk (List.replicate 201 'a')) "simple"
        (fun _ => "ok")).completionCalls = 3 ∧
    (startTopicBranch [] (String.mk (List.replicate 201 'a')) "simple"
        (fun _ => "ok")).historyWrites = 1 := by decide

/-- C7 amended: a main-topic request whose topic is empty (or shorter than
two characters) after sanitization is rejected synchronously with an error
message, before any completion call or history write, leaving the stored
state unchanged; an oversized topic is instead truncated to 200 characters
and processed normally rather than rejected.  (A read of the recent
searches still happens at the top of every request, before validation.) -/
theorem invalid_topic_rejected (store : Store) (rawTopic level : String)
    (client : List Message → String)
    (h : sanitize_input rawTopic = "" ∨ (pyStrip (sanitize_input rawTopic)).length < 2) :
    (startTopicBranch store rawTopic level client).store = store ∧
    (startTopicBranch store rawTopic level client).completionCalls = 0 ∧
    (startTopicBranch store rawTopic level client).historyWrites = 0 ∧
    ((startTopicBranch store rawTopic level client).result = some emptyTopicMsg ∨
     (startTopicBranch store rawTopic level client).result = some tooShortMsg) := by
  by_cases h1 : sanitize_input rawTopic = ""
  · simp [startTopicBranch, startTopicCore, h1]
  · have h2 : (pyStrip (sanitize_input rawTopic)).length < 2 := h.resolve_left h1
    simp [startTopicBranch, startTopicCore, h1, h2]

/-- Witness for the amended C7 at an empty topic. -/
theorem invalid_topic_rejected_witness :
    (sanitize_input "" = "" ∨ (pyStrip (sanitize_input "")).length < 2) ∧
    (startTopicBranch [] "" "simple" (fun _ => "ok")).completionCalls = 0 :=
  ⟨Or.inl (by decide),
   (invalid_topic_rejected [] "" "simple" (fun _ => "ok") (Or.inl (by decide))).2.1⟩

/-- C8 counterexample: a successful follow-up completion returning text
with a run of four newlines is stored verbatim (emphasis stripping and
end-trimming change nothing here), while the normalization the claim
describes would collapse the redundant blank lines — so the stored answer
is not the claimed normalization of the completion text. -/
theorem blank_lines_not_collapsed_cex :
    getConv (followupBranch [] "How?" "DNA" "" "simple"
        (fun _ => "A\n\n\n\nB")).store "DNA" = [⟨"How?", "A\n\n\n\nB"⟩] ∧
    claimedNormalize "A\n\n\n\nB" = "A\n\nB" ∧
    ("A\n\n\n\nB" : String) ≠ "A\n\nB" := by decide

/-- C8 amended: for every successful follow-up completion, the appended
exchange pairs the sanitized question with the completion text normalized
by stripping the double- and single-asterisk emphasis wrappers and trimming
leading and trailing whitespace; blank lines are not collapsed on this path
(that extra step exists only in the primary-explanation cleanup). -/
theorem followup_answer_normalization (store : Store) (rawQ rawT orig level : String)
    (client : List Message → String)
    (h1 : sanitize_input rawQ ≠ "") (h2 : sanitize_input rawT ≠ "")
    (h3 : client (followupMessages (sanitize_input rawT) level
            (getConv store (sanitize_input rawT)) (sanitize_input rawQ)) ≠ "")
    (h4 : isErrorResponse (client (followupMessages (sanitize_input rawT) level
            (getConv store (sanitize_input rawT)) (sanitize_input rawQ))) = false) :
    getConv (followupBranch store rawQ rawT orig level client).store (sanitize_input rawT) =
      getConv store (sanitize_input rawT) ++
        [⟨sanitize_input rawQ,
          followupClean (client (followupMessages (sanitize_input rawT) level
            (getConv store (sanitize_input rawT)) (sanitize_input rawQ)))⟩] := by
  simp only [followupBranch, followupCore, if_pos (And.intro h1 h2),
    if_pos (And.intro h3 h4)]
  exact getConv_setConv store (sanitize_input rawT) _

/-- Witness for the amended C8 on a one-word answer over an empty store. -/
theorem followup_answer_normalization_witness :
    sanitize_input "Why?" ≠ "" ∧
    getConv (followupBranch [] "Why?" "DNA" "" "simple"
      (fun _ => "Because.")).store (sanitize_input "DNA") = [⟨"Why?", "Because."⟩] :=
  ⟨by decide,
   (followup_answer_normalization [] "Why?" "DNA" "" "simple" (fun _ => "Because.")
     (by decide) (by decide) (by decide) (by decide)).trans (by decide)⟩

/-- C9: the regenerated suggested-questions sequence has at most 3 entries
whatever the client returns; the user content of the prompt lists every
already-asked question verbatim behind a dash marker; the returned
questions depend only on the client's response, never on the asked list
(no local filtering — the exclusion is advisory only); and on a successful
follow-up the orchestrator regenerates the suggestions with the asked list
drawn from the updated conversation, which includes the question just
answered. -/
theorem suggested_questions_spec :
    (∀ resp : String, (parseSuggested resp).length ≤ 3) ∧
    (∀ (topic : String) (asked : List String) (q : String), q ∈ asked →
      List.IsInfix ("- " ++ q).data (suggestedUser topic asked).data) ∧
    (∀ (topic : String) (asked asked' : List String) (level : String)
        (client : List Message → String),
      client (suggestedMessages topic asked level) =
          client (suggestedMessages topic asked' level) →
      generate_new_suggested_questions topic asked level client =
        generate_new_suggested_questions topic asked' level client) ∧
    (∀ (store : Store) (rawQ rawT orig level : String) (client : List Message → String),
      sanitize_input rawQ ≠ "" → sanitize_input rawT ≠ "" →
      client (followupMessages (sanitize_input rawT) level
          (getConv store (sanitize_input rawT)) (sanitize_input rawQ)) ≠ "" →
      isErrorResponse (client (followupMessages (sanitize_input rawT) level
          (getConv store (sanitize_input rawT)) (sanitize_input rawQ))) = false →
      (followupBranch store rawQ rawT orig level client).suggested =
        generate_new_suggested_questions (sanitize_input rawT)
          ((getConv store (sanitize_input rawT) ++
            [Exchange.mk (sanitize_input rawQ)
              (followupClean (client (followupMessages (sanitize_input rawT) level
                (getConv store (sanitize_input rawT)) (sanitize_input rawQ))))]).map
            (fun e : Exchange => e.question))
          level client) := by
  refine ⟨?_, ?_, ?_, ?_⟩
  · intro resp
    rw [parseSuggested]
    split
    · rw [List.length_take]
      exact Nat.min_le_left _ _
    · simp
  · intro topic asked q h
    exact asked_isInfix_suggestedUser topic h
  · intro topic asked asked' level client h
    simp [generate_new_suggested_questions, h]
  · intro store rawQ rawT orig level client h1 h2 h3 h4
    simp only [followupBranch, followupCore, if_pos (And.intro h1 h2),
      if_pos (And.intro h3 h4)]

/-- Witness for C9: the asked question appears in the prompt, and a
successful follow-up regenerates suggestions from the client response. -/
theorem suggested_questions_spec_witness :
    List.IsInfix ("- " ++ "Why?").data (suggestedUser "DNA" ["Why?"]).data ∧
    (followupBranch [] "How?" "DNA" "" "simple" (fun _ => "Q1?")).suggested = ["Q1?"] :=
  ⟨suggested_questions_spec.2.1 "DNA" ["Why?"] "Why?" (by decide),
   (suggested_questions_spec.2.2.2 [] "How?" "DNA" "" "simple" (fun _ => "Q1?")
     (by decide) (by decide) (by decide) (by decide)).trans (by decide)⟩

/-- C10: the conversation key is built from the sanitized topic — the
sanitized form is at most 200 characters long and contains none of the four
removed characters, and two raw topics with the same sanitized form make
the follow-up and main-topic branches behave identically (in particular
they address the same stored conversation). -/
theorem conversation_key_sanitized :
    (∀ s : String, (sanitize_input s).length ≤ MAX_TOPIC_LENGTH) ∧
    (∀ (s : String) (c : Char), c ∈ (sanitize_input s).data → isBadChar c = false) ∧
    (∀ (store : Store) (r1 r2 rawQ orig level : String) (client : List Message → String),
      sanitize_input r1 = sanitize_input r2 →
      followupBranch store rawQ r1 orig level client =
          followupBranch store rawQ r2 orig level client ∧
      startTopicBranch store r1 level client = startTopicBranch store r2 level client) := by
  refine ⟨sanitize_input_length, fun s c h => sanitize_input_chars h, ?_⟩
  intro store r1 r2 rawQ orig level client h
  constructor
  · simp only [followupBranch, h]
  · simp only [startTopicBranch, h]

/-- Witness for C10: `a<b` and `ab` sanitize alike and drive the main-topic
branch to identical outcomes; sanitized characters are never harmful. -/
theorem conversation_key_sanitized_witness :
    isBadChar 'a' = false ∧
    startTopicBranch [] "a<b" "simple" (fun _ => "ok") =
      startTopicBranch [] "ab" "simple" (fun _ => "ok") :=
  ⟨conversation_key_sanitized.2.1 "a<b" 'a' (by decide),
   (conversation_key_sanitized.2.2 [] "a<b" "ab" "" "" "simple" (fun _ => "ok")
     (by decide)).2⟩


